import Mathlib

/-!
Shallow embedding of the `jsonobjects` library (path resolution, field
validation, schema composition), translated from `jsonobjects/path.py`,
`jsonobjects/fields.py`, `jsonobjects/schema.py`, `jsonobjects/exceptions.py`,
`jsonobjects/validators.py` and `jsonobjects/utils.py`, together with
theorems settling the behavioural claims about that code.
-/

set_option maxRecDepth 4096

namespace JsonObjects

/-- Python values as they occur in the library's JSON-like documents.
`obj` models a plain Python object carrying only data attributes (it is
neither a `collections.Mapping` nor a `collections.Sequence`, and has no
`get` or `__getitem__` method). -/
inductive PyVal where
  | null
  | bool (b : Bool)
  | int (n : Int)
  | str (s : String)
  | list (xs : List PyVal)
  | dict (kvs : List (String × PyVal))
  | obj (attrs : List (String × PyVal))

/-- `type(value).__name__` for the modelled values. -/
def typeName : PyVal → String
  | .null => "NoneType"
  | .bool _ => "bool"
  | .int _ => "int"
  | .str _ => "str"
  | .list _ => "list"
  | .dict _ => "dict"
  | .obj _ => "object"

/-- `value is None`. -/
def isNullPy : PyVal → Bool
  | .null => true
  | _ => false

/-- First-match association list lookup, the semantics of looking a key up
in a Python `dict` represented as a list of key/value pairs. -/
def lookupAssoc (k : String) : List (String × PyVal) → Option PyVal
  | [] => none
  | (k2, v) :: rest => if k = k2 then some v else lookupAssoc k rest

/-- `collections.Mapping` instance check for the modelled values. -/
def isMappingPy : PyVal → Bool
  | .dict _ => true
  | _ => false

/-- `path._is_sequence`: not a mapping, and either a `Sequence` or has
`__getitem__`.  For the modelled values that means lists and strings. -/
def isSequencePy : PyVal → Bool
  | .list _ => true
  | .str _ => true
  | _ => false

/-- `str.strip` of leading whitespace over the character list. -/
def lstripChars (cs : List Char) : List Char :=
  cs.dropWhile (fun c => c.isWhitespace)

/-- `str.strip` of trailing whitespace over the character list. -/
def rstripChars (cs : List Char) : List Char :=
  (cs.reverse.dropWhile (fun c => c.isWhitespace)).reverse

/-- `str.strip()` over the character list. -/
def trimChars (cs : List Char) : List Char :=
  rstripChars (lstripChars cs)

/-- Digit run accumulator used by `pyIntCore`. -/
def digitsOfAux : List Char → Nat → Option Nat
  | [], acc => some acc
  | c :: cs, acc =>
    if c.isDigit then digitsOfAux cs (acc * 10 + (c.toNat - 48)) else none

/-- Parse a non-empty all-digit character list as a natural number. -/
def digitsOf : List Char → Option Nat
  | [] => none
  | c :: cs => if c.isDigit then digitsOfAux cs (c.toNat - 48) else none

/-- `int(s)` on an already-stripped character list: an optional sign
followed by a non-empty digit run. -/
def pyIntCore : List Char → Option Int
  | [] => none
  | '-' :: cs => (digitsOf cs).map (fun n => -(n : Int))
  | '+' :: cs => (digitsOf cs).map (fun n => (n : Int))
  | cs => (digitsOf cs).map (fun n => (n : Int))

/-- `path._to_index`: `int(k)` returning `none` on `ValueError`
(Python `int` ignores surrounding whitespace). -/
def pyInt (s : String) : Option Int :=
  pyIntCore (trimChars s.data)

/-- `path._unquote`: strip a matching pair of surrounding quotes. -/
def unquoteStr (s : String) : String :=
  match s.data with
  | [] => s
  | c :: cs =>
    if (c = '\'' || c = '"') && ((c :: cs).getLast? == some c)
    then ⟨cs.dropLast⟩ else s

/-- Token classification produced by `Path._token`. -/
inductive Tok where
  | any
  | idx (i : Int)
  | key (k : String)

/-- `Path._token`: `?` is the wildcard, an integer-parsing segment is a
numeric index, anything else is a (possibly quoted) literal key. -/
def Path.token (s : String) : Tok :=
  if s = "?" then Tok.any
  else
    match pyInt s with
    | some i => Tok.idx i
    | none => Tok.key (unquoteStr s)

/-- Failures that can escape the default-dialect walk: the internal
`NotFound` signal, or an uncaught Python `AttributeError`. -/
inductive PathErr where
  | notFound
  | attributeError

/-- `Path._eval_key`, i.e. `value.get(k, NULL)`: a real key lookup on a
mapping; on any other value the attribute access `value.get` raises
`AttributeError` (the modelled plain objects have no `get` method). -/
def Path.eval_key (k : String) (v : PyVal) : Except PathErr (Option PyVal) :=
  match v with
  | .dict kvs => .ok (lookupAssoc k kvs)
  | _ => .error .attributeError

/-- Python sequence indexing with negative-index support; out of range
is `IndexError` which `_eval_index` converts to `NULL`. -/
def pyIndexElems {α : Type} (xs : List α) (i : Int) : Option α :=
  if 0 ≤ i then xs.get? i.toNat
  else if (-i).toNat ≤ xs.length then xs.get? (xs.length - (-i).toNat)
  else none

/-- `Path._eval_index`: `value[i]` with `IndexError`/`TypeError`
converted to `NULL` (`none`). -/
def Path.eval_index (i : Int) (v : PyVal) : Option PyVal :=
  match v with
  | .list xs => pyIndexElems xs i
  | .str s => (pyIndexElems s.data i).map (fun c => PyVal.str ⟨[c]⟩)
  | _ => none

/-- `Path._eval_any`: `value[value.keys()[0]] if value else NULL`
(the first-inserted entry of a non-empty mapping). -/
def Path.eval_any (v : PyVal) : Option PyVal :=
  match v with
  | .dict [] => none
  | .dict (kv :: _) => some kv.2
  | _ => none

/-- `Path._eval_attr`: `getattr(value, k, NULL)`.  Defined in the source
but never called by `_eval`. -/
def Path.eval_attr (k : String) (v : PyVal) : Option PyVal :=
  match v with
  | .obj attrs => lookupAssoc k attrs
  | _ => none

/-- `Path._eval`: dispatch a token against the current container.
Sequences take only numeric indexes; mappings take the wildcard and
literal keys; any other value takes a literal key through `_eval_key`
(not `_eval_attr`), and everything unhandled evaluates to `NULL`. -/
def Path.eval_step (seg : String) (d : PyVal) : Except PathErr (Option PyVal) :=
  if isSequencePy d then
    match Path.token seg with
    | Tok.idx i => .ok (Path.eval_index i d)
    | _ => .ok none
  else if isMappingPy d then
    match Path.token seg with
    | Tok.any => .ok (Path.eval_any d)
    | Tok.key k => Path.eval_key k d
    | Tok.idx _ => .ok none
  else
    match Path.token seg with
    | Tok.key k => Path.eval_key k d
    | _ => .ok none

/-- Split a source expression on the default `.` delimiter; mirrors the
cumulative effect of `Path._head`'s `source.split(self.delim, 1)` steps. -/
def splitOnDot : List Char → List (List Char)
  | [] => [[]]
  | c :: rest =>
    if c = '.' then [] :: splitOnDot rest
    else
      match splitOnDot rest with
      | [] => [[c]]
      | seg :: segs => (c :: seg) :: segs

/-- Segment list of a path expression. -/
def splitSegs (s : String) : List String :=
  (splitOnDot s.data).map (fun cs => ⟨cs⟩)

/-- `Path._walk` over the segment list: evaluate the head, fail
`NotFound` on `NULL`, and at the last token (empty remaining tail) fail
`NotFound` for an explicit null unless `allow_null` is set. -/
def Path.walk (allow_null : Bool) : List String → PyVal → Except PathErr PyVal
  | [], _ => .error .notFound
  | seg :: rest, d =>
    match Path.eval_step seg d with
    | .error e => .error e
    | .ok none => .error .notFound
    | .ok (some v) =>
      if rest.isEmpty || rest == [""] then
        if !allow_null && isNullPy v then .error .notFound else .ok v
      else Path.walk allow_null rest v

/-- `Path(source, allow_null=...).find(data)` in the default dot-path
dialect (`_defatul_find` uses `allow_null=False`). -/
def Path.findPath (allow_null : Bool) (source : String) (data : PyVal) :
    Except PathErr PyVal :=
  Path.walk allow_null (splitSegs source) data

/-- One entry of a `ValidationError.messages` list: either leaf text or a
nested `ValidationError` (its field name and its own messages). -/
inductive Msg where
  | txt (s : String)
  | nested (field_name : Option String) (messages : List Msg)

/-- Failures escaping a field's pipeline: a user-facing
`ValidationError` (tagged field name plus message list), a fatal
`AssertionError`, or an uncaught `AttributeError` from path evaluation. -/
inductive Failure where
  | validationErr (field_name : Option String) (messages : List Msg)
  | assertionErr
  | attributeErr

/-- Flattened message values produced by
`ValidationError.flatten_messages`: text, Python lists, and Python dicts
whose single key is a (possibly `None`) field name. -/
inductive FlatV where
  | s (v : String)
  | lst (vs : List FlatV)
  | dct (kvs : List (Option String × FlatV))

mutual
/-- The `walk` helper inside `ValidationError.flatten_messages`: a string
passes through, a nested error becomes `{field_name: [walk(m) ...]}`. -/
def flattenWalk : Msg → FlatV
  | .txt s => .s s
  | .nested n msgs => .dct [(n, .lst (flattenWalkList msgs))]

/-- `flattenWalk` mapped over a message list. -/
def flattenWalkList : List Msg → List FlatV
  | [] => []
  | m :: ms => flattenWalk m :: flattenWalkList ms
end

/-- `ValidationError.flatten_messages`: walk the tree, then unwrap the
top level when the error is untagged (`field_name is None`). -/
def flatten_messages (field_name : Option String) (messages : List Msg) : FlatV :=
  match field_name with
  | none => .lst (flattenWalkList messages)
  | some n => .dct [(some n, .lst (flattenWalkList messages))]

/-- Left-to-right, non-overlapping substring replacement over character
lists (the semantics of `str.replace`); the fuel argument is the input
length, consumed at least one character per step. -/
def replaceAux (pat rep : List Char) : Nat → List Char → List Char
  | 0, cs => cs
  | Nat.succ fuel, cs =>
    match cs with
    | [] => []
    | c :: rest =>
      if pat.isPrefixOf (c :: rest) then
        rep ++ replaceAux pat rep fuel ((c :: rest).drop pat.length)
      else c :: replaceAux pat rep fuel rest

/-- `s.replace(pat, rep)` over character lists. -/
def replaceChars (pat rep cs : List Char) : List Char :=
  if pat.isEmpty then cs else replaceAux pat rep cs.length cs

/-- `str.format(**kwargs)` restricted to the placeholder substitution the
library performs: each named argument replaces its `\x7bname\x7d` hole. -/
def formatTemplate (tmpl : String) (args : List (String × String)) : String :=
  args.foldl
    (fun t kv => ⟨replaceChars ("\x7b" ++ kv.1 ++ "\x7d").data kv.2.data t.data⟩)
    tmpl

/-- Generic first-match lookup in a name-keyed association list (the
semantics of reading a Python `dict` key). -/
def lookupEntry {α : Type} (k : String) : List (String × α) → Option α
  | [] => none
  | (k2, v) :: rest => if k = k2 then some v else lookupEntry k rest

/-- Generic `dict.__setitem__` on a name-keyed association list:
overwrite in place when the key exists, else append. -/
def setEntry {α : Type} (c : List (String × α)) (k : String) (v : α) :
    List (String × α) :=
  if c.any (fun kv => kv.1 == k) = true then
    c.map (fun kv => if kv.1 = k then (k, v) else kv)
  else c ++ [(k, v)]

/-- Python `dict(pairs)`: later pairs override earlier ones, first
occurrence fixes the iteration position. -/
def dictOfEntries {α : Type} (ps : List (String × α)) : List (String × α) :=
  ps.foldl (fun acc kv => setEntry acc kv.1 kv.2) []

/-- A message-template catalog (`default_error_messages` of one class). -/
abbrev Catalog := List (String × String)

/-- Catalog lookup (Python `dict.__getitem__` as an `Option`). -/
def lookupCat (k : String) (c : Catalog) : Option String :=
  lookupEntry k c

/-- `dict.update`: fold the updates into the base dict. -/
def updateCat (base : Catalog) (upd : Catalog) : Catalog :=
  upd.foldl (fun b kv => setEntry b kv.1 kv.2) base

/-- `fields.get_error_messages`: fold `default_error_messages` over
`reversed(cls.__mro__)` — the argument lists the per-class catalogs from
least specific to most specific, so later (more specific) catalogs
override earlier ones. -/
def get_error_messages (mroRev : List Catalog) : Catalog :=
  mroRev.foldl updateCat []

/-- A field's `default` (and `default_blank_value`) slot: the `NULL`
sentinel, a plain value, or a zero-argument callable. -/
inductive Dflt where
  | nullD
  | val (v : PyVal)
  | gen (g : Unit → PyVal)

/-- `default() if callable(default) else default`. -/
def resolveDflt : Dflt → PyVal
  | .nullD => PyVal.null
  | .val v => v
  | .gen g => g ()

/-- `Field.__init__` lines 60-62: when the class has a non-`NULL`
`default_blank_value`, an explicit construction-time `default` replaces
it. -/
def initBlankValue (classBlank : Dflt) (default : Dflt) : Dflt :=
  match classBlank with
  | .nullD => .nullD
  | cb =>
    match default with
    | .nullD => cb
    | d => d

/-- Result of a field's `convert_to_type`: a value, a `self.fail(key,
**kwargs)` call (resolved against the catalog later), or an already
constructed failure propagating from a child field or nested schema. -/
inductive CResult where
  | ok (v : PyVal)
  | failKey (key : String) (args : List (String × String))
  | fails (e : Failure)

/-- A bound `Field` instance.  Configuration slots mirror
`Field.__init__`; `convert_to_type` and `is_blank` are the
subclass-specific hooks, stored as functions. -/
structure Field where
  source : Option (List String)
  required : Bool
  null : Bool
  blank : Bool
  default : Dflt
  default_blank_value : Dflt
  error_messages : Catalog
  validators : List (PyVal → Option String)
  post_process : List (PyVal → PyVal)
  convert_to_type : PyVal → CResult
  is_blank : PyVal → Bool
  field_name : Option String

/-- `Field.fail`: look the key up in the merged catalog; raise a
`ValidationError` with the formatted message tagged by the bound field
name, or an `AssertionError` when the key is absent. -/
def Field.fail (f : Field) (key : String) (args : List (String × String)) : Failure :=
  match lookupCat key f.error_messages with
  | some tmpl => .validationErr f.field_name [Msg.txt (formatTemplate tmpl args)]
  | none => .assertionErr

/-- `Field.is_null`. -/
def Field.is_null (_f : Field) (v : PyVal) : Bool := isNullPy v

/-- `Field.validate_empty_values`: the empty-value state machine over the
resolved raw value (`none` is the `NULL` marker for a missing value). -/
def Field.validate_empty_values (f : Field) (v : Option PyVal) :
    Except Failure (Bool × PyVal) :=
  match v with
  | none =>
    if f.required then .error (f.fail "required" [])
    else .ok (true, resolveDflt f.default)
  | some val =>
    if f.is_null val then
      if !f.null then .error (f.fail "null" []) else .ok (true, PyVal.null)
    else if f.is_blank val then
      if !f.blank then .error (f.fail "blank" [])
      else
        .ok (true,
          match f.default_blank_value with
          | Dflt.nullD => val
          | b => resolveDflt b)
    else .ok (false, val)

/-- `Field.run_validators`: run each validator in declared order, the
first failure message wins (a validator raises `ValidationError` with its
own `field_name`, which is `None` for the library-built validators). -/
def run_validators : List (PyVal → Option String) → PyVal → Option String
  | [], _ => none
  | validate :: rest, v =>
    match validate v with
    | some m => some m
    | none => run_validators rest v

/-- `Field.run_post_process`: thread the value through the transforms in
declared order. -/
def run_post_process : List (PyVal → PyVal) → PyVal → PyVal
  | [], v => v
  | proc :: rest, v => run_post_process rest (proc v)

/-- `Field.run_validation`: empty-value machine, then coercion,
validators and post-processing (`Field.validate` is the identity). -/
def Field.run_validation (f : Field) (v : Option PyVal) : Except Failure PyVal :=
  match f.validate_empty_values v with
  | .error e => .error e
  | .ok (true, val) => .ok val
  | .ok (false, val) =>
    match f.convert_to_type val with
    | .failKey k args => .error (f.fail k args)
    | .fails e => .error e
    | .ok cv =>
      match run_validators f.validators cv with
      | some m => .error (.validationErr none [Msg.txt m])
      | none => .ok (run_post_process f.post_process cv)

/-- `Field.find`'s candidate loop: try each source expression with the
default dialect, swallowing `NotFound` and returning `NULL` when all
candidates miss; an `AttributeError` escapes. -/
def trySources : List String → PyVal → Except Failure (Option PyVal)
  | [], _ => .ok none
  | src :: rest, d =>
    match Path.findPath false src d with
    | .ok v => .ok (some v)
    | .error .notFound => trySources rest d
    | .error .attributeError => .error .attributeErr

/-- `Field.find`: a missing/empty `source` is a fatal `AssertionError`;
otherwise try the candidate sources in order. -/
def Field.findIn (f : Field) (data : PyVal) : Except Failure (Option PyVal) :=
  match f.source with
  | none => .error .assertionErr
  | some [] => .error .assertionErr
  | some srcs => trySources srcs data

/-- `Field.parse`: locate then validate. -/
def Field.parse (f : Field) (data : PyVal) : Except Failure PyVal :=
  match f.findIn data with
  | .error e => .error e
  | .ok raw => f.run_validation raw

/-- `Field.bind`: record the attribute name and default the source to it. -/
def Field.bind (name : String) (f : Field) : Field :=
  { f with
    field_name := some name
    source := match f.source with
              | none => some [name]
              | s => s }

/-- `len(value) == 0` with `TypeError` treated as not blank
(`Field.is_blank`). -/
def defaultIsBlank (v : PyVal) : Bool :=
  match v with
  | .str s => s.isEmpty
  | .list xs => xs.isEmpty
  | .dict kvs => kvs.isEmpty
  | _ => false

/-- `Field.default_error_messages`. -/
def baseFieldCatalog : Catalog :=
  [("required", "This field is required."),
   ("null", "This field may not be null."),
   ("blank", "This field may not be empty.")]

/-- `validators.MinValue(limit, message=...)` specialised to integer
values: predicate `v >= limit`, failing with the formatted message
(`message.format(limit=..., value=...)`; the templates used here contain
only the `\x7blimit\x7d` hole). -/
def minValueValidator (message : String) (limit : Int) : PyVal → Option String :=
  fun v =>
    match v with
    | .int n =>
      if limit ≤ n then none
      else some (formatTemplate message [("limit", toString limit)])
    | _ => none

/-- `validators.MaxValue(limit, message=...)` specialised to integers. -/
def maxValueValidator (message : String) (limit : Int) : PyVal → Option String :=
  fun v =>
    match v with
    | .int n =>
      if n ≤ limit then none
      else some (formatTemplate message [("limit", toString limit)])
    | _ => none

/-- `BaseNumberField.default_error_messages`. -/
def baseNumberCatalog : Catalog :=
  [("invalid", "A valid number is required."),
   ("max_value", "Ensure this field is less than or equal to \x7blimit\x7d."),
   ("min_value", "Ensure this field is greater than or equal to \x7blimit\x7d."),
   ("max_string_length", "String value too large.")]

/-- `IntegerField.default_error_messages`. -/
def integerCatalog : Catalog :=
  [("invalid", "A valid integer is required.")]

/-- Merged catalog of `IntegerField` (reversed MRO: `Field`,
`BaseNumberField`, `IntegerField`). -/
def integerErrorMessages : Catalog :=
  get_error_messages [baseFieldCatalog, baseNumberCatalog, integerCatalog]

/-- `BaseNumberField.__init__` validator registration: `max_value` first,
then `min_value`, each carrying the merged catalog's message template. -/
def numberValidators (cat : Catalog) (minValue maxValue : Option Int) :
    List (PyVal → Option String) :=
  (match maxValue with
   | some lim => [maxValueValidator ((lookupCat "max_value" cat).getD "") lim]
   | none => []) ++
  (match minValue with
   | some lim => [minValueValidator ((lookupCat "min_value" cat).getD "") lim]
   | none => [])

/-- `IntegerField.re_decimal.sub('', s)`: drop a trailing
`\x2e0*\s*` suffix (a dot, zero or more zeros, trailing whitespace). -/
def reDecimalStrip (cs : List Char) : List Char :=
  let r1 := cs.reverse.dropWhile (fun c => c.isWhitespace)
  let r2 := r1.dropWhile (fun c => c = '0')
  match r2 with
  | '.' :: rest => rest.reverse
  | _ => cs

/-- `IntegerField.convert_to_type`: strings are stripped, length-guarded
and parsed after removing a `.0`-style suffix; integers pass through
(`int(str(n)) == n`); every other value's `str()` form fails `int()` and
raises `invalid` (`MAX_STRING_LENGTH = 1000`). -/
def integerConvert (v : PyVal) : CResult :=
  match v with
  | .int n => .ok (.int n)
  | .str s =>
    let t := trimChars s.data
    if 1000 < t.length then .failKey "max_string_length" []
    else
      match pyIntCore (reDecimalStrip t) with
      | some n => .ok (.int n)
      | none => .failKey "invalid" []
  | _ => .failKey "invalid" []

/-- `IntegerField(source, default=, required=, min_value=, max_value=,
post_process=)` with the remaining options at their defaults. -/
def mkIntegerField (source : Option (List String)) (required : Bool)
    (default : Dflt) (minValue maxValue : Option Int)
    (post : List (PyVal → PyVal)) : Field :=
  { source := source
    required := required
    null := false
    blank := false
    default := default
    default_blank_value := initBlankValue Dflt.nullD default
    error_messages := integerErrorMessages
    validators := numberValidators integerErrorMessages minValue maxValue
    post_process := post
    convert_to_type := integerConvert
    is_blank := defaultIsBlank
    field_name := none }

mutual
/-- Python `repr(value)` for the modelled values (string quoting is
modelled without escape sequences). -/
def pyReprOf : PyVal → String
  | .null => "None"
  | .bool b => if b then "True" else "False"
  | .int n => toString n
  | .str s => "'" ++ s ++ "'"
  | .list xs => "[" ++ pyReprJoin xs ++ "]"
  | .dict kvs => "\x7b" ++ pyReprJoinKV kvs ++ "\x7d"
  | .obj _ => "<object>"

/-- Comma-joined element reprs of a list. -/
def pyReprJoin : List PyVal → String
  | [] => ""
  | [x] => pyReprOf x
  | x :: xs => pyReprOf x ++ ", " ++ pyReprJoin xs

/-- Comma-joined `key: value` reprs of a dict. -/
def pyReprJoinKV : List (String × PyVal) → String
  | [] => ""
  | [(k, v)] => "'" ++ k ++ "': " ++ pyReprOf v
  | (k, v) :: kvs => "'" ++ k ++ "': " ++ pyReprOf v ++ ", " ++ pyReprJoinKV kvs
end

/-- Python `str(value)` for the modelled values (containers fall back to
their repr, as in Python). -/
def pyStrOf : PyVal → String
  | .str s => s
  | v => pyReprOf v

/-- `StringField.default_error_messages`. -/
def stringCatalog : Catalog :=
  [("invalid", "A valid string is required."),
   ("max_length", "Ensure this field has no more than \x7blimit\x7d characters."),
   ("min_length", "Ensure this field has at least \x7blimit\x7d characters.")]

/-- Merged catalog of `StringField`. -/
def stringErrorMessages : Catalog :=
  get_error_messages [baseFieldCatalog, stringCatalog]

/-- `StringField.is_blank`: strip when `trim_whitespace`, then the base
zero-length test. -/
def stringIsBlank (trimWhitespace : Bool) (v : PyVal) : Bool :=
  match v with
  | .str s => defaultIsBlank (.str (if trimWhitespace then ⟨trimChars s.data⟩ else s))
  | other => defaultIsBlank other

/-- `StringField.convert_to_type`: `str(value)` for non-strings, decode
(modelled as identity on abstract text), then strip a non-empty result
when `trim_whitespace` is set. -/
def stringConvert (trimWhitespace : Bool) (v : PyVal) : CResult :=
  let s := pyStrOf v
  .ok (.str (if !s.isEmpty && trimWhitespace then ⟨trimChars s.data⟩ else s))

/-- `validators.MaxLength` specialised to `len` on the modelled values
(`len` of a non-sized value is not reached by the string field). -/
def maxLengthValidator (message : String) (limit : Nat) : PyVal → Option String :=
  fun v =>
    match v with
    | .str s =>
      if s.length ≤ limit then none
      else some (formatTemplate message [("limit", toString limit)])
    | _ => none

/-- `validators.MinLength` specialised the same way. -/
def minLengthValidator (message : String) (limit : Nat) : PyVal → Option String :=
  fun v =>
    match v with
    | .str s =>
      if limit ≤ s.length then none
      else some (formatTemplate message [("limit", toString limit)])
    | _ => none

/-- `StringField.__init__` validator registration: `max_length` first,
then `min_length`. -/
def lengthValidators (cat : Catalog) (minLength maxLength : Option Nat) :
    List (PyVal → Option String) :=
  (match maxLength with
   | some lim => [maxLengthValidator ((lookupCat "max_length" cat).getD "") lim]
   | none => []) ++
  (match minLength with
   | some lim => [minLengthValidator ((lookupCat "min_length" cat).getD "") lim]
   | none => [])

/-- `StringField.default_blank_value` is the `str` callable: invoking it
yields the empty string. -/
def stringClassBlank : Dflt := Dflt.gen (fun _ => PyVal.str "")

/-- `StringField(source, default=, required=, blank=, min_length=,
max_length=, post_process=)` with `trim_whitespace=True` and the other
options at their defaults. -/
def mkStringField (source : Option (List String)) (required : Bool)
    (blank : Bool) (default : Dflt) (minLength maxLength : Option Nat)
    (post : List (PyVal → PyVal)) : Field :=
  { source := source
    required := required
    null := false
    blank := blank
    default := default
    default_blank_value := initBlankValue stringClassBlank default
    error_messages := stringErrorMessages
    validators := lengthValidators stringErrorMessages minLength maxLength
    post_process := post
    convert_to_type := stringConvert true
    is_blank := stringIsBlank true
    field_name := none }

/-- Merged catalog of the base `Field` class. -/
def fieldErrorMessages : Catalog :=
  get_error_messages [baseFieldCatalog]

/-- `Field(null=True, blank=True)`: the base field used as the default
`child` of `ListField` and `DictField` (its `convert_to_type` is the
identity and it has no validators). -/
def defaultChildField : Field :=
  { source := none
    required := true
    null := true
    blank := true
    default := Dflt.nullD
    default_blank_value := initBlankValue Dflt.nullD Dflt.nullD
    error_messages := fieldErrorMessages
    validators := []
    post_process := []
    convert_to_type := fun v => CResult.ok v
    is_blank := defaultIsBlank
    field_name := none }

/-- `utils.is_non_str_iterable` restricted to a value's element sequence:
lists iterate their elements, mappings iterate their keys, and every
other modelled value (strings included) has no `__iter__`. -/
def pyIterElems : PyVal → Option (List PyVal)
  | .list xs => some xs
  | .dict kvs => some (kvs.map (fun kv => PyVal.str kv.1))
  | _ => none

/-- The `[self.child.run_validation(v) for v in value]` comprehension:
left-to-right, aborting on the first child failure. -/
def runChildren (child : Field) : List PyVal → Except Failure (List PyVal)
  | [] => .ok []
  | x :: xs =>
    match child.run_validation (some x) with
    | .error e => .error e
    | .ok v =>
      match runChildren child xs with
      | .error e => .error e
      | .ok vs => .ok (v :: vs)

/-- `ListField.default_error_messages`. -/
def listCatalog : Catalog :=
  [("invalid_type", "Expected a list of items but got type '\x7binput_type\x7d'."),
   ("blank", "This field may not be empty.")]

/-- Merged catalog of `ListField`. -/
def listErrorMessages : Catalog :=
  get_error_messages [baseFieldCatalog, listCatalog]

/-- `ListField.convert_to_type`: reject non-iterables with
`fail('invalid_type', ...)`, else run every element through the bound
child field's pipeline, failing fast. -/
def listConvert (child : Field) (v : PyVal) : CResult :=
  match pyIterElems v with
  | none => .failKey "invalid_type" [("input_type", typeName v)]
  | some elems =>
    match runChildren child elems with
    | .error e => .fails e
    | .ok vs => .ok (.list vs)

/-- `ListField.default_blank_value` is the `list` callable. -/
def listClassBlank : Dflt := Dflt.gen (fun _ => PyVal.list [])

/-- `ListField(source, child=, default=, required=, blank=)`; the child
is bound to the empty field name as in `self.child.bind('', self)`. -/
def mkListField (source : Option (List String)) (required : Bool)
    (blank : Bool) (default : Dflt) (child : Field) : Field :=
  { source := source
    required := required
    null := false
    blank := blank
    default := default
    default_blank_value := initBlankValue listClassBlank default
    error_messages := listErrorMessages
    validators := []
    post_process := []
    convert_to_type := listConvert (Field.bind "" child)
    is_blank := defaultIsBlank
    field_name := none }

/-- The `\x7bto_unicode(k): self.child.run_validation(v) for ...\x7d`
comprehension of `DictField`: keys normalised to text (identity on the
modelled string keys), values through the child pipeline, failing fast. -/
def runChildrenKV (child : Field) :
    List (String × PyVal) → Except Failure (List (String × PyVal))
  | [] => .ok []
  | (k, x) :: xs =>
    match child.run_validation (some x) with
    | .error e => .error e
    | .ok v =>
      match runChildrenKV child xs with
      | .error e => .error e
      | .ok vs => .ok ((k, v) :: vs)

/-- `DictField.default_error_messages` (note: the expected-dictionary
message is stored under the key `input_type`). -/
def dictCatalog : Catalog :=
  [("input_type", "Expected a dictionary of items but got type '\x7binput_type\x7d'"),
   ("blank", "This field may not be empty.")]

/-- Merged catalog of `DictField`. -/
def dictErrorMessages : Catalog :=
  get_error_messages [baseFieldCatalog, dictCatalog]

/-- `DictField.convert_to_type`: non-mappings go through
`self.fail('invalid_type', input_type=...)`; mappings have every value
run through the bound child field. -/
def dictConvert (child : Field) (v : PyVal) : CResult :=
  match v with
  | .dict kvs =>
    match runChildrenKV child kvs with
    | .error e => .fails e
    | .ok rs => .ok (.dict rs)
  | _ => .failKey "invalid_type" [("input_type", typeName v)]

/-- `DictField.default_blank_value` is the `dict` callable. -/
def dictClassBlank : Dflt := Dflt.gen (fun _ => PyVal.dict [])

/-- `DictField(source, child=, default=, required=, blank=)`. -/
def mkDictField (source : Option (List String)) (required : Bool)
    (blank : Bool) (default : Dflt) (child : Field) : Field :=
  { source := source
    required := required
    null := false
    blank := blank
    default := default
    default_blank_value := initBlankValue dictClassBlank default
    error_messages := dictErrorMessages
    validators := []
    post_process := []
    convert_to_type := dictConvert (Field.bind "" child)
    is_blank := defaultIsBlank
    field_name := none }

/-- `SchemaMetaClass._get_declared_fields`: the class's own field
attributes, prefixed by each base's declared fields walking
`reversed(bases)`, collapsed by `dict(...)` so that later (more
specific) declarations fully replace earlier ones. -/
def get_declared_fields (own : List (String × Field))
    (bases : List (List (String × Field))) : List (String × Field) :=
  dictOfEntries (bases.reverse.foldl (fun acc b => b ++ acc) own)

/-- The `Schema.fields` property: clone each declared field and bind it
to its attribute name. -/
def bindFields (declared : List (String × Field)) : List (String × Field) :=
  declared.map (fun nf => (nf.1, Field.bind nf.1 nf.2))

/-- `Schema.find`: with no configured source the whole document is the
schema's own scope; otherwise resolve like a plain field. -/
def Schema.findRes (f : Field) (data : PyVal) : Except Failure (Option PyVal) :=
  match f.source with
  | none => .ok (some data)
  | some [] => .ok (some data)
  | some srcs => trySources srcs data

/-- The optional `validate_<field_name>` refinement hook, applied to the
already-validated value inside the same `try` block. -/
def applyHook (h : Option (PyVal → Except Failure PyVal))
    (r : Except Failure PyVal) : Except Failure PyVal :=
  match r, h with
  | .ok v, some hook => hook v
  | other, _ => other

/-- The loop body of `Schema.convert_to_type`: resolve and validate each
bound child field in order; a `ValidationError` is caught, retagged with
the child's bound name and collected while the remaining siblings still
run; other exceptions propagate.  At the end, either raise one
aggregated `ValidationError` tagged with the schema's own field name, or
assemble the result mapping (through `result_factory` when set). -/
def schemaGo (self_name : Option String)
    (result_factory : Option (List (String × PyVal) → PyVal))
    (hooks : List (String × (PyVal → Except Failure PyVal))) (value : PyVal) :
    List (String × Field) → List (String × PyVal) → List Msg → CResult
  | [], result, errors =>
    if errors.isEmpty then
      .ok (match result_factory with
           | some fac => fac result
           | none => .dict result)
    else .fails (.validationErr self_name errors)
  | (name, f) :: rest, result, errors =>
    match f.findIn value with
    | .error e => .fails e
    | .ok raw =>
      match applyHook (lookupEntry name hooks) (f.run_validation raw) with
      | .ok v => schemaGo self_name result_factory hooks value rest (result ++ [(name, v)]) errors
      | .error (.validationErr _ msgs) =>
        schemaGo self_name result_factory hooks value rest result
          (errors ++ [Msg.nested f.field_name msgs])
      | .error e => .fails e

/-- `Schema.convert_to_type` as a coercion function over the scoped
document. -/
def Schema.convert (self_name : Option String)
    (result_factory : Option (List (String × PyVal) → PyVal))
    (hooks : List (String × (PyVal → Except Failure PyVal)))
    (fields : List (String × Field)) : PyVal → CResult :=
  fun value => schemaGo self_name result_factory hooks value fields [] []

/-- A `Schema` instance as a `Field` (a schema is a field whose coercion
recurses into its declared children); `self_name` is the schema's
post-bind `field_name` (`none` for a top-level validator). -/
def mkSchema (self_name : Option String) (source : Option (List String))
    (declared : List (String × Field))
    (hooks : List (String × (PyVal → Except Failure PyVal)))
    (result_factory : Option (List (String × PyVal) → PyVal)) : Field :=
  { source := source
    required := true
    null := false
    blank := false
    default := Dflt.nullD
    default_blank_value := initBlankValue Dflt.nullD Dflt.nullD
    error_messages := fieldErrorMessages
    validators := []
    post_process := []
    convert_to_type := Schema.convert self_name result_factory hooks (bindFields declared)
    is_blank := defaultIsBlank
    field_name := self_name }

/-- `Schema.parse` / `Schema.__call__`: `Schema.find` then the inherited
`run_validation`. -/
def Schema.parse (sf : Field) (data : PyVal) : Except Failure PyVal :=
  match Schema.findRes sf data with
  | .error e => .error e
  | .ok raw => sf.run_validation raw

theorem lookupEntry_append {α : Type} (n : String) :
    ∀ xs ys : List (String × α),
      lookupEntry n (xs ++ ys) = (lookupEntry n xs).or (lookupEntry n ys) := by
  intro xs ys
  induction xs with
  | nil =>
    simp only [List.nil_append, lookupEntry]
    cases lookupEntry n ys <;> simp [Option.or]
  | cons kv rest ih =>
    by_cases hn : n = kv.1
    · simp [lookupEntry, hn, Option.or]
    · simp [lookupEntry, hn, ih]

theorem lookupEntry_map_replace {α : Type} (k n : String) (v : α) (hne : n ≠ k) :
    ∀ c : List (String × α),
      lookupEntry n (c.map (fun kv => if kv.1 = k then (k, v) else kv)) =
      lookupEntry n c := by
  intro c
  induction c with
  | nil => rfl
  | cons kv rest ih =>
    rw [List.map_cons]
    by_cases hk : kv.1 = k
    · rw [if_pos hk]
      have h1 : lookupEntry n ((k, v) :: rest.map (fun kv => if kv.1 = k then (k, v) else kv)) =
          lookupEntry n (rest.map (fun kv => if kv.1 = k then (k, v) else kv)) := by
        simp [lookupEntry, hne]
      have h2 : lookupEntry n (kv :: rest) = lookupEntry n rest := by
        simp [lookupEntry, hk ▸ hne]
      rw [h1, h2, ih]
    · rw [if_neg hk]
      by_cases hn : n = kv.1
      · simp [lookupEntry, hn]
      · simp [lookupEntry, hn, ih]

theorem lookupEntry_replace_hit {α : Type} (k : String) (v : α) :
    ∀ c : List (String × α), c.any (fun kv => kv.1 == k) = true →
      lookupEntry k (c.map (fun kv => if kv.1 = k then (k, v) else kv)) = some v := by
  intro c
  induction c with
  | nil => intro h; simp at h
  | cons kv rest ih =>
    intro h
    rw [List.map_cons]
    by_cases hk : kv.1 = k
    · rw [if_pos hk]
      simp [lookupEntry]
    · rw [if_neg hk]
      have hrest : rest.any (fun kv => kv.1 == k) = true := by
        rw [List.any_cons] at h
        have hb : (kv.1 == k) = false := by
          cases hx : kv.1 == k with
          | false => rfl
          | true => exact absurd (by simpa using hx) hk
        rw [hb] at h
        simpa using h
      have hne : k ≠ kv.1 := fun he => hk he.symm
      simp [lookupEntry, hne, ih hrest]

theorem lookupEntry_not_contains {α : Type} (k : String) :
    ∀ c : List (String × α), c.any (fun kv => kv.1 == k) = false →
      lookupEntry k c = none := by
  intro c
  induction c with
  | nil => intro _; rfl
  | cons kv rest ih =>
    intro h
    rw [List.any_cons] at h
    have hkv : (kv.1 == k) = false := by
      cases hx : kv.1 == k with
      | false => rfl
      | true => rw [hx] at h; simp at h
    have hne : k ≠ kv.1 := fun he => by simp [he] at hkv
    rw [hkv] at h
    simp only [Bool.false_or] at h
    simp [lookupEntry, hne, ih h]

theorem lookupEntry_setEntry {α : Type} (c : List (String × α)) (k n : String) (v : α) :
    lookupEntry n (setEntry c k v) = if n = k then some v else lookupEntry n c := by
  unfold setEntry
  by_cases hc : c.any (fun kv => kv.1 == k) = true
  · rw [if_pos hc]
    by_cases hn : n = k
    · subst hn; rw [if_pos rfl]; exact lookupEntry_replace_hit n v c hc
    · rw [if_neg hn]; exact lookupEntry_map_replace k n v hn c
  · rw [if_neg hc]
    rw [lookupEntry_append]
    have hcf : c.any (fun kv => kv.1 == k) = false := by
      cases hx : c.any (fun kv => kv.1 == k) with
      | false => rfl
      | true => exact absurd hx hc
    by_cases hn : n = k
    · subst hn
      rw [lookupEntry_not_contains n c hcf]
      simp [lookupEntry, Option.or]
    · have h1 : lookupEntry n [(k, v)] = none := by simp [lookupEntry, hn]
      rw [h1, if_neg hn]
      cases lookupEntry n c <;> rfl

theorem lookupEntry_foldl_setEntry {α : Type} (n : String) :
    ∀ (ps acc : List (String × α)),
      lookupEntry n (ps.foldl (fun a kv => setEntry a kv.1 kv.2) acc) =
      (lookupEntry n ps.reverse).or (lookupEntry n acc) := by
  intro ps
  induction ps with
  | nil =>
    intro acc
    simp only [List.foldl_nil, List.reverse_nil, lookupEntry]
    cases lookupEntry n acc <;> simp [Option.or]
  | cons kv rest ih =>
    intro acc
    simp only [List.foldl_cons]
    rw [ih, lookupEntry_setEntry, List.reverse_cons, lookupEntry_append]
    cases lookupEntry n rest.reverse <;> by_cases hn : n = kv.1 <;>
      simp [lookupEntry, hn, Option.or]

theorem lookupEntry_dictOfEntries {α : Type} (n : String) (ps : List (String × α)) :
    lookupEntry n (dictOfEntries ps) = lookupEntry n ps.reverse := by
  unfold dictOfEntries
  rw [lookupEntry_foldl_setEntry]
  cases lookupEntry n ps.reverse <;> rfl

/-- C1: when resolution finds no value, a required field fails with the
`required` catalog message tagged with its bound name; a non-required
field returns its configured default — invoking a callable default —
and `run_validation` applies no coercion, validators or post-processing
to it (the result is `resolveDflt f.default` for every field
configuration whatsoever). -/
theorem missing_value_required_or_default (f : Field) :
    (∀ m : String, f.required = true →
      lookupCat "required" f.error_messages = some m →
      f.run_validation none =
        .error (.validationErr f.field_name [Msg.txt m])) ∧
    (f.required = false → f.run_validation none = .ok (resolveDflt f.default)) ∧
    (∀ g : Unit → PyVal, f.required = false → f.default = Dflt.gen g →
      f.run_validation none = .ok (g ())) := by
  refine ⟨?_, ?_, ?_⟩
  · intro m hreq hm
    simp only [Field.run_validation, Field.validate_empty_values, hreq, if_pos]
    simp [Field.fail, lookupCat] at hm ⊢
    simp [hm, formatTemplate]
  · intro hreq
    simp [Field.run_validation, Field.validate_empty_values, hreq]
  · intro g hreq hg
    simp [Field.run_validation, Field.validate_empty_values, hreq, hg, resolveDflt]

/-- Witness for C1 at concrete integer fields: a required field over a
missing value fails `required`; non-required fields return the plain or
generated default unchanged. -/
theorem missing_value_required_or_default_witness :
    (mkIntegerField (some ["x"]) true Dflt.nullD none none []).run_validation none =
      .error (.validationErr none [Msg.txt "This field is required."]) ∧
    (mkIntegerField (some ["x"]) false (Dflt.val (.int 9)) none none []).run_validation none =
      .ok (.int 9) ∧
    (mkIntegerField (some ["x"]) false (Dflt.gen (fun _ => .int 7)) none none []).run_validation none =
      .ok (.int 7) := by
  refine ⟨?_, ?_, ?_⟩
  · exact (missing_value_required_or_default _).1 "This field is required." rfl rfl
  · exact (missing_value_required_or_default _).2.1 rfl
  · exact (missing_value_required_or_default _).2.2 (fun _ => .int 7) rfl rfl

/-- C4 (code evaluated at the failing input): `DictField` coercion of a
non-mapping raises `AssertionError`, not a user-facing validation
failure, because `convert_to_type` fails with key `invalid_type` while
the merged catalog stores the expected-dictionary message under
`input_type`; a mapping input still runs every value through the bound
child field with string keys. -/
theorem dict_nonmapping_is_assertion :
    (mkDictField (some ["d"]) true false Dflt.nullD defaultChildField).run_validation
      (some (.int 42)) = .error Failure.assertionErr ∧
    lookupCat "input_type" dictErrorMessages =
      some "Expected a dictionary of items but got type '\x7binput_type\x7d'" ∧
    lookupCat "invalid_type" dictErrorMessages = none ∧
    (mkDictField (some ["d"]) true false Dflt.nullD defaultChildField).run_validation
      (some (.dict [("k", .int 3)])) = .ok (.dict [("k", .int 3)]) := by
  exact ⟨rfl, rfl, rfl, rfl⟩

/-- C5 (code evaluated at the failing input): resolving a literal-key
token against a value that is neither mapping-like nor sequence-like
does not fall back to `_eval_attr` — `_eval` routes the token to
`_eval_key`, whose `value.get` raises an uncaught `AttributeError`,
whether or not the attribute exists; the never-called `_eval_attr`
would have produced the attribute's value. -/
theorem attr_fallback_crashes :
    Path.findPath false "a" (.obj [("a", .int 1)]) = .error .attributeError ∧
    Path.eval_attr "a" (.obj [("a", .int 1)]) = some (.int 1) ∧
    Path.findPath false "a" (.obj []) = .error .attributeError := by
  exact ⟨rfl, rfl, rfl⟩

/-- C3: a `ListField` runs elements left-to-right through its bound
child field and the first failing element's error becomes the whole
list's failure (later elements are never consulted); concretely a child
`min_value=5` over `[1, 5]` fails with the first element's `min_value`
message; a schema, by contrast, still evaluates the remaining sibling
fields after one fails and aggregates every failure. -/
theorem list_fail_fast_schema_aggregates :
    (∀ (child : Field) (x : PyVal) (rest : List PyVal) (e : Failure),
      child.run_validation (some x) = .error e →
      listConvert child (.list (x :: rest)) = .fails e) ∧
    (mkListField (some ["l"]) true false Dflt.nullD
        (mkIntegerField none true Dflt.nullD (some 5) none [])).run_validation
      (some (.list [.int 1, .int 5])) =
      .error (.validationErr none
        [Msg.txt "Ensure this field is greater than or equal to 5."]) ∧
    Schema.parse (mkSchema none none
        [("p", mkIntegerField none true Dflt.nullD none none []),
         ("q", mkIntegerField none true Dflt.nullD none none [])] [] none)
      (.dict [("r", .int 0)]) =
      .error (.validationErr none
        [Msg.nested (some "p") [Msg.txt "This field is required."],
         Msg.nested (some "q") [Msg.txt "This field is required."]]) := by
  refine ⟨?_, rfl, rfl⟩
  intro child x rest e h
  simp [listConvert, pyIterElems, runChildren, h]

/-- Witness for C3's general fail-fast part at the claim's own example:
the first element `1` fails the child's `min_value=5` validator, and
that failure becomes the whole list's conversion result. -/
theorem list_fail_fast_schema_aggregates_witness :
    listConvert (Field.bind "" (mkIntegerField none true Dflt.nullD (some 5) none []))
      (.list [.int 1, .int 5]) =
      .fails (.validationErr none
        [Msg.txt "Ensure this field is greater than or equal to 5."]) := by
  exact (list_fail_fast_schema_aggregates).1
    (Field.bind "" (mkIntegerField none true Dflt.nullD (some 5) none []))
    (.int 1) [.int 5] _ rfl

/-- C2 counterexample: a top-level schema with required fields `a` and
`b`, both missing from the parsed document, raises one aggregated
failure — but its flattened view is a *list* of single-entry mappings,
`[\x7ba: [...]\x7d, \x7bb: [...]\x7d]`, not a mapping holding both
field names as the claim states. -/
theorem flatten_two_required_is_list_counterexample :
    Schema.parse (mkSchema none none
        [("a", mkIntegerField none true Dflt.nullD none none []),
         ("b", mkIntegerField none true Dflt.nullD none none [])] [] none)
      (.dict [("c", .int 1)]) =
      .error (.validationErr none
        [Msg.nested (some "a") [Msg.txt "This field is required."],
         Msg.nested (some "b") [Msg.txt "This field is required."]]) ∧
    flatten_messages none
        [Msg.nested (some "a") [Msg.txt "This field is required."],
         Msg.nested (some "b") [Msg.txt "This field is required."]] =
      FlatV.lst
        [FlatV.dct [(some "a", FlatV.lst [FlatV.s "This field is required."])],
         FlatV.dct [(some "b", FlatV.lst [FlatV.s "This field is required."])]] ∧
    FlatV.lst
        [FlatV.dct [(some "a", FlatV.lst [FlatV.s "This field is required."])],
         FlatV.dct [(some "b", FlatV.lst [FlatV.s "This field is required."])]] ≠
      FlatV.dct
        [(some "a", FlatV.lst [FlatV.s "This field is required."]),
         (some "b", FlatV.lst [FlatV.s "This field is required."])] := by
  exact ⟨rfl, rfl, fun h => FlatV.noConfusion h⟩

/-- C2 amended: a failing top-level parse raises one aggregated failure
whose flattened view is a list with one entry per failing field — each
entry a single-entry mapping from that field's name to its flattened
message list (nested failures flatten to the same single-entry-mapping
shape recursively) — with no empty-name wrapper at the top; with two
required fields both missing, the list holds the two single-entry
mappings, each mapping its field name to `["This field is required."]`. -/
theorem flatten_failing_parse_shape :
    (∀ messages : List Msg,
      flatten_messages none messages = FlatV.lst (flattenWalkList messages)) ∧
    (∀ (n : Option String) (messages : List Msg),
      flattenWalk (Msg.nested n messages) =
        FlatV.dct [(n, FlatV.lst (flattenWalkList messages))]) ∧
    Schema.parse (mkSchema none none
        [("a", mkIntegerField none true Dflt.nullD none none []),
         ("b", mkIntegerField none true Dflt.nullD none none [])] [] none)
      (.dict [("c", .int 1)]) =
      .error (.validationErr none
        [Msg.nested (some "a") [Msg.txt "This field is required."],
         Msg.nested (some "b") [Msg.txt "This field is required."]]) ∧
    flatten_messages none
        [Msg.nested (some "a") [Msg.txt "This field is required."],
         Msg.nested (some "b") [Msg.txt "This field is required."]] =
      FlatV.lst
        [FlatV.dct [(some "a", FlatV.lst [FlatV.s "This field is required."])],
         FlatV.dct [(some "b", FlatV.lst [FlatV.s "This field is required."])]] := by
  exact ⟨fun _ => rfl, fun _ _ => rfl, rfl, rfl⟩

theorem walk_null_becomes_notFound :
    ∀ (segs : List String) (d : PyVal),
      Path.walk true segs d = .ok PyVal.null →
      Path.walk false segs d = .error .notFound := by
  intro segs
  induction segs with
  | nil => intro d h; exact absurd h (by simp [Path.walk])
  | cons seg rest ih =>
    intro d h
    unfold Path.walk at h ⊢
    revert h
    cases he : Path.eval_step seg d with
    | error e => intro h; exact absurd h (by simp)
    | ok ov =>
      cases ov with
      | none => intro h; exact absurd h (by simp)
      | some v =>
        intro h
        have h2 : (if (rest.isEmpty || rest == [""]) = true then
            if (!true && isNullPy v) = true then Except.error PathErr.notFound
            else Except.ok v
          else Path.walk true rest v) = Except.ok PyVal.null := h
        show (if (rest.isEmpty || rest == [""]) = true then
            if (!false && isNullPy v) = true then Except.error PathErr.notFound
            else Except.ok v
          else Path.walk false rest v) = Except.error PathErr.notFound
        by_cases hl : (rest.isEmpty || rest == [""]) = true
        · rw [if_pos hl] at h2 ⊢
          have hv : v = PyVal.null := by simpa using h2
          subst hv
          simp [isNullPy]
        · rw [if_neg hl] at h2 ⊢
          exact ih v h2

/-- C7: in the default dialect, whenever a resolution with null-handling
enabled would return an explicit null, the same resolution without
null-handling fails `NotFound` — exactly the failure an absent key
produces; concretely `x` over `\x7bx: None\x7d` is `NotFound` like `x`
over the empty document, while `allow_null=True` returns the null. -/
theorem last_token_null_is_notFound :
    (∀ (source : String) (d : PyVal),
      Path.findPath true source d = .ok PyVal.null →
      Path.findPath false source d = .error PathErr.notFound) ∧
    Path.findPath false "x" (.dict [("x", .null)]) = .error .notFound ∧
    Path.findPath false "x" (.dict []) = .error .notFound ∧
    Path.findPath true "x" (.dict [("x", .null)]) = .ok .null := by
  refine ⟨?_, rfl, rfl, rfl⟩
  intro source d h
  exact walk_null_becomes_notFound (splitSegs source) d h

/-- Witness for C7's general part at the concrete document
`\x7bx: \x7by: None\x7d\x7d`. -/
theorem last_token_null_is_notFound_witness :
    Path.findPath false "x.y" (.dict [("x", .dict [("y", .null)])]) =
      .error PathErr.notFound := by
  exact (last_token_null_is_notFound).1 "x.y" (.dict [("x", .dict [("y", .null)])]) rfl

/-- C9: the built-in blank substitutions are empty text for `StringField`,
the empty list for `ListField` and the empty dict for `DictField`; and
for any field whose class-level blank value is not `NULL`, supplying an
explicit construction-time default replaces that substitution: a blank
input with blanks allowed yields the configured default, invoked when it
is callable. -/
theorem blank_default_overrides_kind_blank :
    (∀ (f : Field) (cb d : Dflt) (val : PyVal),
      f.default_blank_value = initBlankValue cb d →
      cb ≠ Dflt.nullD → d ≠ Dflt.nullD →
      f.blank = true → f.is_blank val = true → isNullPy val = false →
      f.run_validation (some val) = .ok (resolveDflt d)) ∧
    resolveDflt stringClassBlank = PyVal.str "" ∧
    resolveDflt listClassBlank = PyVal.list [] ∧
    resolveDflt dictClassBlank = PyVal.dict [] := by
  refine ⟨?_, rfl, rfl, rfl⟩
  intro f cb d val h1 h2 h3 h4 h5 h6
  have hd : initBlankValue cb d = d := by
    cases cb with
    | nullD => exact absurd rfl h2
    | val v => cases d with
      | nullD => exact absurd rfl h3
      | val w => rfl
      | gen g => rfl
    | gen g => cases d with
      | nullD => exact absurd rfl h3
      | val w => rfl
      | gen g2 => rfl
  rw [hd] at h1
  simp only [Field.run_validation, Field.validate_empty_values, Field.is_null, h6,
    Bool.false_eq_true, if_false, h5, if_pos, h4, Bool.not_true, h1]

/-- Witness for C9: a `StringField` constructed with `blank=True` and an
explicit default substitutes that default — not the empty string — for
a blank input. -/
theorem blank_default_overrides_kind_blank_witness :
    (mkStringField (some ["s"]) true true (Dflt.val (.str "fallback")) none none
        []).run_validation (some (.str "")) = .ok (.str "fallback") := by
  exact (blank_default_overrides_kind_blank).1 _ stringClassBlank
    (Dflt.val (.str "fallback")) (.str "") rfl
    (fun h => Dflt.noConfusion h) (fun h => Dflt.noConfusion h) rfl rfl rfl

/-- C10: `Field.fail` with a message key that is missing from the merged
catalog — built by updating with every class catalog from least to most
specific (`reversed(__mro__)`) — raises `AssertionError` instead of a
user-facing `ValidationError`; with the key present it raises the
tagged, formatted `ValidationError`. -/
theorem fail_unknown_key_assertion (f : Field) (mroRev : List Catalog)
    (key : String) (args : List (String × String))
    (hcat : f.error_messages = get_error_messages mroRev) :
    (lookupCat key (get_error_messages mroRev) = none →
      f.fail key args = Failure.assertionErr) ∧
    (∀ tmpl : String, lookupCat key (get_error_messages mroRev) = some tmpl →
      f.fail key args =
        .validationErr f.field_name [Msg.txt (formatTemplate tmpl args)]) := by
  constructor
  · intro hnone
    simp [Field.fail, hcat, hnone]
  · intro tmpl hsome
    simp [Field.fail, hcat, hsome]

/-- Witness for C10 at the `DictField` catalog: `invalid_type` is absent
from the merged catalog (which stores the message under `input_type`),
so `fail('invalid_type', ...)` is an `AssertionError`, while
`fail('blank')` is a user-facing failure. -/
theorem fail_unknown_key_assertion_witness :
    (mkDictField (some ["d"]) true false Dflt.nullD defaultChildField).fail
      "invalid_type" [("input_type", "int")] = Failure.assertionErr ∧
    (mkDictField (some ["d"]) true false Dflt.nullD defaultChildField).fail
      "blank" [] =
      .validationErr none [Msg.txt "This field may not be empty."] := by
  constructor
  · exact (fail_unknown_key_assertion _ [baseFieldCatalog, dictCatalog]
      "invalid_type" [("input_type", "int")] rfl).1 rfl
  · exact (fail_unknown_key_assertion _ [baseFieldCatalog, dictCatalog]
      "blank" [] rfl).2 "This field may not be empty." rfl

theorem dropWhile_append_last (p : Char → Bool) (a : Char) (h : p a = false) :
    ∀ xs : List Char, ∃ ys, (xs ++ [a]).dropWhile p = ys ++ [a] := by
  intro xs
  induction xs with
  | nil => exact ⟨[], by simp [List.dropWhile_cons, h]⟩
  | cons x t ih =>
    cases hx : p x with
    | true =>
      obtain ⟨ys, hy⟩ := ih
      exact ⟨ys, by simp [List.dropWhile_cons, hx, hy]⟩
    | false => exact ⟨x :: t, by simp [List.dropWhile_cons, hx]⟩

theorem trimChars_keeps_head (c : Char) (r : List Char)
    (hw : c.isWhitespace = false) : ∃ t, trimChars (c :: r) = c :: t := by
  unfold trimChars lstripChars rstripChars
  have h1 : (c :: r).dropWhile (fun x => x.isWhitespace) = c :: r := by
    simp [List.dropWhile_cons, hw]
  rw [h1, List.reverse_cons]
  obtain ⟨ys, hy⟩ := dropWhile_append_last (fun x => x.isWhitespace) c hw r.reverse
  rw [hy]
  exact ⟨ys.reverse, by simp⟩

theorem pyInt_quote_head (s : String) (c : Char) (r : List Char)
    (hd : s.data = c :: r) (hq : c = '"' ∨ c = '\'') : pyInt s = none := by
  unfold pyInt
  rw [hd]
  have hw : c.isWhitespace = false := by rcases hq with h | h <;> subst h <;> rfl
  obtain ⟨t, ht⟩ := trimChars_keeps_head c r hw
  rw [ht]
  rcases hq with h | h <;> subst h <;> rfl

theorem token_quoted_is_key (s : String) (c : Char) (r : List Char)
    (hd : s.data = c :: r) (hq : c = '"' ∨ c = '\'') :
    Path.token s = Tok.key (unquoteStr s) := by
  have hne : s ≠ "?" := by
    intro h
    subst h
    have h1 : ('?' :: [] : List Char) = c :: r := hd
    injection h1 with h2 _
    rcases hq with h | h <;> subst h <;> exact absurd h2 (by decide)
  unfold Path.token
  rw [if_neg hne, pyInt_quote_head s c r hd hq]

/-- C6: token classification — a quoted segment (head character a quote)
is always a literal key, any segment parsing as an integer is a numeric
index, and an index token evaluates to `NULL` against every
non-sequence container; concretely `x."1"` never indexes a sequence-like
`x` (it fails `NotFound`) yet retrieves key `"1"` of a mapping, while
unquoted `x.1` indexes a sequence-like `x` and evaluates to `NULL`
(hence `NotFound`) on a mapping. -/
theorem quoted_key_unquoted_index :
    (∀ (s : String) (c : Char) (r : List Char),
      s.data = c :: r → (c = '"' ∨ c = '\'') →
      Path.token s = Tok.key (unquoteStr s)) ∧
    (∀ (s : String) (i : Int), pyInt s = some i → s ≠ "?" →
      Path.token s = Tok.idx i) ∧
    (∀ (seg : String) (i : Int) (d : PyVal),
      Path.token seg = Tok.idx i → isSequencePy d = false →
      Path.eval_step seg d = .ok none) ∧
    Path.findPath false "x.\"1\"" (.dict [("x", .list [.str "a", .str "b"])]) =
      .error .notFound ∧
    Path.findPath false "x.\"1\"" (.dict [("x", .dict [("1", .int 7)])]) =
      .ok (.int 7) ∧
    Path.findPath false "x.1" (.dict [("x", .list [.str "a", .str "b"])]) =
      .ok (.str "b") ∧
    Path.findPath false "x.1" (.dict [("x", .dict [("1", .int 7)])]) =
      .error .notFound := by
  refine ⟨token_quoted_is_key, ?_, ?_, rfl, rfl, rfl, rfl⟩
  · intro s i h hne
    unfold Path.token
    rw [if_neg hne, h]
  · intro seg i d ht hseq
    unfold Path.eval_step
    rw [hseq, ht]
    cases hm : isMappingPy d <;> simp [hm]

/-- Witness for C6's general parts at `"1"`, `1` and a mapping
container. -/
theorem quoted_key_unquoted_index_witness :
    Path.token "\"1\"" = Tok.key "1" ∧
    Path.token "1" = Tok.idx 1 ∧
    Path.eval_step "1" (.dict [("x", .int 0)]) = .ok none := by
  refine ⟨?_, ?_, ?_⟩
  · exact (quoted_key_unquoted_index).1 "\"1\"" '"' ['1', '"'] rfl (Or.inl rfl)
  · exact (quoted_key_unquoted_index).2.1 "1" 1 rfl (by decide)
  · exact (quoted_key_unquoted_index).2.2.1 "1" 1 (.dict [("x", .int 0)]) rfl rfl

/-- C8: when a subclass's own attributes redeclare a field name, the
declared-field collection — built by prefixing the reversed bases'
collections and collapsing with `dict(...)` — maps that name to the
subclass's own field configuration, whatever the ancestor declared; and
validation uses only that configuration: redeclaring `x` with a doubling
`post_process` makes the subclass schema parse `\x7bx: 1\x7d` to `x = 2`
while the parent still parses it to `x = 1`. -/
theorem subclass_field_overrides :
    (∀ (ownP ownC : List (String × Field)) (n : String) (f : Field),
      lookupEntry n ownC.reverse = some f →
      lookupEntry n (get_declared_fields ownC [get_declared_fields ownP []]) =
        some f) ∧
    Schema.parse (mkSchema none none
        (get_declared_fields
          [("x", mkIntegerField none true Dflt.nullD none none [])] [])
        [] none)
      (.dict [("x", .int 1)]) = .ok (.dict [("x", .int 1)]) ∧
    Schema.parse (mkSchema none none
        (get_declared_fields
          [("x", mkIntegerField none true Dflt.nullD none none
            [fun v => match v with | .int n => .int (2 * n) | x => x])]
          [get_declared_fields
            [("x", mkIntegerField none true Dflt.nullD none none [])] []])
        [] none)
      (.dict [("x", .int 1)]) = .ok (.dict [("x", .int 2)]) := by
  refine ⟨?_, rfl, rfl⟩
  intro ownP ownC n f h
  unfold get_declared_fields
  simp only [List.reverse_cons, List.reverse_nil, List.nil_append,
    List.foldl_cons, List.foldl_nil]
  rw [lookupEntry_dictOfEntries, List.reverse_append, lookupEntry_append, h]
  rfl

/-- Witness for C8's general part: the subclass's own `("x", double)`
declaration wins over the parent's in the collapsed collection. -/
theorem subclass_field_overrides_witness :
    lookupEntry "x"
      (get_declared_fields
        [("x", mkIntegerField none true Dflt.nullD none none
          [fun v => match v with | .int n => .int (2 * n) | x => x])]
        [get_declared_fields
          [("x", mkIntegerField none true Dflt.nullD none none [])] []]) =
      some (mkIntegerField none true Dflt.nullD none none
        [fun v => match v with | .int n => .int (2 * n) | x => x]) := by
  exact (subclass_field_overrides).1
    [("x", mkIntegerField none true Dflt.nullD none none [])]
    [("x", mkIntegerField none true Dflt.nullD none none
      [fun v => match v with | .int n => .int (2 * n) | x => x])]
    "x" _ rfl

example : Path.findPath false "x.y" (.dict [("x", .dict [("y", .int 1)])]) = .ok (.int 1) := rfl

example : Path.findPath false "x.y.1" (.dict [("x", .dict [("y", .list [.int 1, .int 2])])]) = .ok (.int 2) := rfl

example : Path.findPath false "x.\"1\".0" (.dict [("x", .dict [("1", .list [.int 3])])]) = .ok (.int 3) := rfl

example : Path.findPath false "x.\"?\"" (.dict [("x", .dict [("?", .str "any")])]) = .ok (.str "any") := rfl

example : Path.findPath false "?.y.0" (.dict [("x", .dict [("y", .list [.int 1])])]) = .ok (.int 1) := rfl

example : Path.findPath false "x.z" (.dict [("x", .dict [("y", .int 1)])]) = .error .notFound := rfl

example : Path.findPath false "x" (.dict [("x", .null)]) = .error .notFound := rfl

example : Path.findPath true "x" (.dict [("x", .null)]) = .ok .null := rfl

example : integerConvert (.str "1.0") = .ok (.int 1) := rfl

example : integerConvert (.str "1.2") = .failKey "invalid" [] := rfl

example : lookupCat "invalid" integerErrorMessages = some "A valid integer is required." := rfl

example : lookupCat "required" integerErrorMessages = some "This field is required." := rfl

example : (mkStringField (some ["x"]) true false Dflt.nullD none none []).run_validation
    (some (.str "  hi ")) = .ok (.str "hi") := rfl

example : (mkStringField (some ["x"]) true false Dflt.nullD none none []).run_validation
    (some (.str "  ")) =
    .error (.validationErr none [Msg.txt "This field may not be empty."]) := rfl

example : (mkDictField (some ["d"]) true false Dflt.nullD defaultChildField).run_validation
    (some (.dict [("k", .int 3)])) = .ok (.dict [("k", .int 3)]) := rfl

example : (mkListField (some ["l"]) true false Dflt.nullD defaultChildField).run_validation
    (some (.str "nope")) =
    .error (.validationErr none
      [Msg.txt "Expected a list of items but got type 'str'."]) := rfl

example : Schema.parse
    (mkSchema none none [("x", mkIntegerField none true Dflt.nullD none none [])] [] none)
    (.dict [("x", .int 1)]) = .ok (.dict [("x", .int 1)]) := rfl

example : Schema.parse
    (mkSchema none none
      [("bar", mkSchema (some "bar") none
        [("foo", mkIntegerField none true Dflt.nullD none none [])] [] none)]
      [] none)
    (.dict [("bar", .dict [("foo", .null)])]) =
    .error (.validationErr none
      [Msg.nested (some "bar")
        [Msg.nested (some "foo") [Msg.txt "This field is required."]]]) := rfl

example : flatten_messages none
    [Msg.nested (some "bar")
      [Msg.nested (some "foo") [Msg.txt "This field is required."]]] =
    .lst [.dct [(some "bar",
      .lst [.dct [(some "foo", .lst [.s "This field is required."])]])]] := rfl

end JsonObjects
